import Mathlib

set_option maxRecDepth 20000

/-!
Verification development for the SEO article generator starter.

The definitions below are a shallow embedding of the repository's core
logic: the prompt compiler (`buildArticlePrompt` and its lookup tables),
the token-budget function (`getMaxTokens`), the article API handlers
(`getById`, `deleteById`, `generatePOST`), and the client-side
filter/sort layer of the article history view.  JavaScript object-literal
lookups (`obj[key]`) are modelled as association-list lookups returning
`Option`; the JS `|| fallback` idiom on such a lookup becomes
`Option.getD`; a JS `TypeError` thrown by reading a property of
`undefined` is modelled by the compiler returning `none`.
-/

/-- Association-list lookup modelling JavaScript object indexing
`obj[key]`: `none` plays the role of `undefined`. -/
def lookupStr {α : Type} (key : String) : List (String × α) → Option α
  | [] => none
  | (k, v) :: rest => if key = k then some v else lookupStr key rest

/-- Whether `p` is a prefix of `s`, on character lists. -/
def isPrefixOfL : List Char → List Char → Bool
  | [], _ => true
  | _ :: _, [] => false
  | p :: ps, c :: cs => p == c && isPrefixOfL ps cs

/-- Whether `pat` occurs as a contiguous sublist of the second list. -/
def containsL (pat : List Char) : List Char → Bool
  | [] => pat.isEmpty
  | c :: cs => isPrefixOfL pat (c :: cs) || containsL pat cs

/-- Substring test, modelling JavaScript `s.includes(pat)`. -/
def containsStr (s pat : String) : Bool := containsL pat.data s.data

/-- ASCII lowering of one code point, as `toLowerCase` acts on the
characters appearing in this data model. -/
def lowerCode (n : Nat) : Nat := if 65 ≤ n ∧ n ≤ 90 then n + 32 else n

/-- The code points of `s.toLowerCase()`. -/
def lowerCodes (s : String) : List Nat := s.data.map (fun c => lowerCode c.toNat)

/-- Prefix test on code-point lists. -/
def isPrefixOfN : List Nat → List Nat → Bool
  | [], _ => true
  | _ :: _, [] => false
  | p :: ps, c :: cs => p == c && isPrefixOfN ps cs

/-- Contiguous-sublist test on code-point lists. -/
def containsN (pat : List Nat) : List Nat → Bool
  | [] => pat.isEmpty
  | c :: cs => isPrefixOfN pat (c :: cs) || containsN pat cs

/-- Case-insensitive substring test, modelling
`s.toLowerCase().includes(pat.toLowerCase())`. -/
def containsLower (s pat : String) : Bool :=
  containsN (lowerCodes pat) (lowerCodes s)

/-- The nine independent boolean structure toggles of a generation
request (source field name `structure`, a Lean keyword, hence
`structureFlags` at the use sites). -/
structure StructureFlags where
  conclusion : Bool
  faqSection : Bool
  tables : Bool
  h3Headings : Bool
  lists : Bool
  italics : Bool
  bold : Bool
  quotes : Bool
  keyTakeaways : Bool
deriving DecidableEq

/-- The stylistic settings embedded in an article record
(`ArticleSettings` in `src/db/schema/articles`). -/
structure ArticleSettings where
  articleType : String
  articleSize : String
  tone : String
  pointOfView : String
  readability : String
  aiCleaning : String
  structureFlags : StructureFlags
  language : String
deriving DecidableEq

/-- Input of the prompt compiler: the settings plus title and keywords
(`interface PromptData extends ArticleSettings` in the prompt builder). -/
structure PromptData extends ArticleSettings where
  title : String
  keywords : String
deriving DecidableEq

/-- A persisted article row (table `articles`); timestamps are modelled
as naturals. -/
structure Article where
  id : String
  userId : String
  title : String
  content : String
  keywords : String
  settings : ArticleSettings
  createdAt : Nat
  updatedAt : Nat
deriving DecidableEq

/-- One entry of the article-size requirement table: a word-count range
and an H2 heading-count range, both kept as strings as in the source. -/
structure SizeReq where
  words : String
  h2 : String
deriving DecidableEq

/-- The `languageNames` object of the prompt builder. -/
def languageNames : List (String × String) :=
  [("en", "English"), ("es", "Spanish"), ("fr", "French"), ("de", "German"),
   ("it", "Italian"), ("pt", "Portuguese"), ("nl", "Dutch"), ("pl", "Polish"),
   ("ru", "Russian"), ("ja", "Japanese"), ("ko", "Korean"), ("zh", "Chinese"),
   ("ar", "Arabic"), ("hi", "Hindi"), ("tr", "Turkish"), ("sv", "Swedish"),
   ("da", "Danish"), ("no", "Norwegian"), ("fi", "Finnish")]

/-- `languageNames[language] || 'English'`. -/
def targetLanguageName (language : String) : String :=
  (lookupStr language languageNames).getD "English"

/-- The `sizeRequirements` object of the prompt builder. -/
def sizeRequirements : List (String × SizeReq) :=
  [("X-Small", { words := "600-1200", h2 := "2-5" }),
   ("Small", { words := "1200-2400", h2 := "5-8" }),
   ("Medium", { words := "2400-3600", h2 := "9-12" }),
   ("Large", { words := "3600-5200", h2 := "13-16" })]

/-- The `toneInstructions` object of the prompt builder. -/
def toneInstructions : List (String × String) :=
  [("Friendly", "Use a warm, approachable, and conversational tone"),
   ("Professional", "Maintain a formal, business-appropriate tone"),
   ("Informational", "Focus on providing clear, educational information"),
   ("Transactional", "Include clear calls-to-action and conversion-focused language"),
   ("Inspirational", "Use motivational and uplifting language"),
   ("Neutral", "Maintain an objective and unbiased tone"),
   ("Witty", "Include clever humor and wordplay where appropriate"),
   ("Casual", "Use informal, relaxed language"),
   ("Authoritative", "Demonstrate expertise and confidence"),
   ("Encouraging", "Use supportive and motivating language"),
   ("Persuasive", "Focus on convincing the reader of your viewpoint"),
   ("Poetic", "Use literary and expressive language")]

/-- The `povInstructions` object of the prompt builder. -/
def povInstructions : List (String × String) :=
  [("First person singular", "Write from \"I\", \"me\", \"my\", \"mine\" perspective"),
   ("First person plural", "Write from \"we\", \"us\", \"our\", \"ours\" perspective"),
   ("Second person", "Write from \"you\", \"your\", \"yours\" perspective"),
   ("Third person", "Write from \"he\", \"she\", \"it\", \"they\" perspective")]

/-- The `readabilityInstructions` object of the prompt builder. -/
def readabilityInstructions : List (String × String) :=
  [("5th grade", "Use simple vocabulary and short sentences (11-year-old reading level)"),
   ("6th grade", "Use conversational language with moderate complexity"),
   ("7th grade", "Use fairly easy to read language with some complexity"),
   ("8th & 9th grade", "Use easily understood language with moderate complexity"),
   ("10th to 12th grade", "Use fairly difficult language with complex sentences"),
   ("College", "Use difficult language with academic vocabulary"),
   ("College graduate", "Use very difficult language with sophisticated vocabulary"),
   ("Professional", "Use extremely difficult language specific to the industry")]

/-- The `cleaningInstructions` object of the prompt builder. -/
def cleaningInstructions : List (String × String) :=
  [("Basic AI Words Removal", "Avoid common AI phrases like \"in conclusion\", \"furthermore\", \"moreover\", \"in addition\", etc."),
   ("Extended AI Words Removal", "Eliminate all detectable AI patterns and phrases. Write like a human expert would naturally write.")]

/-- `if (articleType !== 'None') prompt += ...` — the article-type line. -/
def articleTypeClause (articleType : String) : String :=
  if articleType ≠ "None" then "\n- Article Type: " ++ articleType else ""

/-- `if (tone !== 'None') prompt += ...` with `toneInstructions[tone] || tone`. -/
def toneClause (tone : String) : String :=
  if tone ≠ "None" then
    "\n- Tone: " ++ (lookupStr tone toneInstructions).getD tone
  else ""

/-- `if (pointOfView !== 'None') prompt += ...` with raw-value fallback. -/
def povClause (pointOfView : String) : String :=
  if pointOfView ≠ "None" then
    "\n- Point of View: " ++ (lookupStr pointOfView povInstructions).getD pointOfView
  else ""

/-- `if (readability !== 'None') prompt += ...` with raw-value fallback. -/
def readabilityClause (readability : String) : String :=
  if readability ≠ "None" then
    "\n- Readability Level: " ++ (lookupStr readability readabilityInstructions).getD readability
  else ""

/-- `if (aiCleaning !== 'No AI Words Removal') prompt += ...` with
raw-value fallback. -/
def aiCleaningClause (aiCleaning : String) : String :=
  if aiCleaning ≠ "No AI Words Removal" then
    "\n- Content Style: " ++ (lookupStr aiCleaning cleaningInstructions).getD aiCleaning
  else ""

/-- The `structureItems` array: one pushed label per `true` flag, in the
source's statement order. -/
def structureItems (st : StructureFlags) : List String :=
  (if st.conclusion then ["Conclusion section"] else []) ++
  (if st.faqSection then ["FAQ section"] else []) ++
  (if st.tables then ["Data tables"] else []) ++
  (if st.h3Headings then ["H3 subheadings within sections"] else []) ++
  (if st.lists then ["Bulleted or numbered lists"] else []) ++
  (if st.italics then ["Italic text for emphasis"] else []) ++
  (if st.bold then ["Bold text for emphasis"] else []) ++
  (if st.quotes then ["Relevant quotes"] else []) ++
  (if st.keyTakeaways then ["Key takeaways section"] else [])

/-- `if (structureItems.length > 0) prompt += '\n- Include: ' + join(', ')`. -/
def includeLine (st : StructureFlags) : String :=
  if (structureItems st).length > 0 then
    "\n- Include: " ++ String.intercalate ", " (structureItems st)
  else ""

/-- The opening template literal of the prompt, up to the main-keywords
line. -/
def promptHeader (title keywords targetLanguage : String) (sizeReq : SizeReq) : String :=
  "You are an expert SEO content writer. Write a comprehensive, SEO-optimized article in "
  ++ targetLanguage
  ++ " based on the following specifications:\n\nTITLE: "
  ++ title
  ++ "\nKEYWORDS: "
  ++ keywords
  ++ "\n\nARTICLE REQUIREMENTS:\n- Target Language: "
  ++ targetLanguage
  ++ "\n- Word Count: "
  ++ sizeReq.words
  ++ " words\n- H2 Headings: "
  ++ sizeReq.h2
  ++ " sections\n- Main Keywords: "
  ++ keywords

/-- The fixed closing blocks: ten content guidelines, SEO requirements,
and the final instruction. -/
def contentGuidelines (h2 targetLanguage : String) : String :=
  "\n\nCONTENT GUIDELINES:\n1. Create a compelling, SEO-friendly title that includes the main keywords\n2. Write an engaging introduction that hooks the reader and includes the primary keywords\n3. Develop "
  ++ h2
  ++ " well-structured H2 sections with relevant content\n4. Naturally incorporate the keywords throughout the content ("
  ++ targetLanguage
  ++ " language)\n5. Ensure proper heading hierarchy (H1 > H2 > H3)\n6. Include meta descriptions and SEO best practices\n7. Write unique, valuable content that provides real insights\n8. Use proper grammar, spelling, and punctuation in "
  ++ targetLanguage
  ++ "\n9. Ensure the content flows logically and is easy to read\n10. Include internal/external linking opportunities where relevant\n\nSEO REQUIREMENTS:\n- Keyword density: 1-2% for main keywords\n- Include LSI (Latent Semantic Indexing) keywords naturally\n- Use semantic HTML5 structure\n- Include meta title (50-60 characters) and description (150-160 characters)\n- Ensure mobile readability\n- Include relevant entities and concepts\n\nPlease write the complete article now. Start with the title, followed by the meta description, then the full article content. Make sure to follow all the specified requirements and create high-quality, engaging content that ranks well in search engines."

/-- The prompt compiler (`buildArticlePrompt` in the source).  The source
reads `sizeReq.words` immediately after the unchecked lookup
`sizeRequirements[articleSize]`, so an unknown `articleSize` throws a
`TypeError` before any text is produced; that failure is the `none`
branch here.  Every other step is total. -/
def buildArticlePrompt (data : PromptData) : Option String :=
  (lookupStr data.articleSize sizeRequirements).map (fun sizeReq =>
    promptHeader data.title data.keywords (targetLanguageName data.language) sizeReq
    ++ articleTypeClause data.articleType
    ++ toneClause data.tone
    ++ povClause data.pointOfView
    ++ readabilityClause data.readability
    ++ aiCleaningClause data.aiCleaning
    ++ "\n\nSTRUCTURE REQUIREMENTS:"
    ++ includeLine data.structureFlags
    ++ contentGuidelines sizeReq.h2 (targetLanguageName data.language))

/-- The `tokenLimits` object of `getMaxTokens` in the generate route. -/
def tokenLimits : List (String × Nat) :=
  [("X-Small", 2000), ("Small", 4000), ("Medium", 6000), ("Large", 8000)]

/-- `getMaxTokens` in the generate route: `tokenLimits[articleSize] || 4000`. -/
def getMaxTokens (articleSize : String) : Nat :=
  (lookupStr articleSize tokenLimits).getD 4000

/-- Result of the single-article GET handler. -/
inductive GetByIdResult where
  | found (a : Article)
  | notFound
deriving DecidableEq

/-- Result of the DELETE handler. -/
inductive DeleteResult where
  | success
  | notFound
deriving DecidableEq

/-- The GET handler of `/api/articles/[id]` after the session check:
`select().from(articles).where(eq(articles.id, articleId)).limit(1)`,
404 when empty, else the first row.  `ownerId` is the session user id;
the source's `where` clause does not mention it. -/
def getById (rows : List Article) (articleId ownerId : String) : GetByIdResult :=
  match rows.filter (fun a => a.id == articleId) with
  | [] => GetByIdResult.notFound
  | a :: _ => GetByIdResult.found a

/-- The DELETE handler of `/api/articles/[id]` after the session check:
`delete(articles).where(eq(articles.id, articleId)).returning(...)`,
404 when no row was returned.  `ownerId` is the session user id; the
source's `where` clause does not mention it.  Returns the response
together with the table after the statement. -/
def deleteById (rows : List Article) (articleId ownerId : String) :
    DeleteResult × List Article :=
  if (rows.filter (fun a => a.id == articleId)).isEmpty then
    (DeleteResult.notFound, rows)
  else
    (DeleteResult.success, rows.filter (fun a => a.id != articleId))

/-- Response of the generate route: the success JSON or an error JSON
with its HTTP status. -/
inductive PostResult where
  | success (articleId title content : String) (settings : ArticleSettings)
  | errorResp (status : Nat)
deriving DecidableEq

/-- Whether a generate-route response is the success JSON. -/
def PostResult.isSuccess : PostResult → Bool
  | PostResult.success _ _ _ _ => true
  | PostResult.errorResp _ => false

/-- The article row the generate route inserts
(`articleData` in the source). -/
def articleFromRequest (articleId userId : String) (req : PromptData)
    (content : String) (now : Nat) : Article :=
  { id := articleId, userId := userId, title := req.title, content := content,
    keywords := req.keywords, settings := req.toArticleSettings,
    createdAt := now, updatedAt := now }

/-- The tail of the generate route's POST handler, from reading
`completion.choices[0]?.message?.content` onward.  `genContent` is that
optional chain (`none` = absent); the source's `if (!generatedContent)`
also fires on the empty string, JavaScript's other falsy string.
`insertOk` says whether `db.insert` completes; when it throws, the catch
block produces an error response and no row is stored.  The success JSON
is built only after the awaited insert returns. -/
def generatePOST (req : PromptData) (userId articleId : String)
    (genContent : Option String) (insertOk : Bool) (now : Nat)
    (db0 : List Article) : PostResult × List Article :=
  match genContent with
  | none => (PostResult.errorResp 500, db0)
  | some c =>
    if c = "" then (PostResult.errorResp 500, db0)
    else if insertOk then
      (PostResult.success articleId req.title c req.toArticleSettings,
       db0 ++ [articleFromRequest articleId userId req c now])
    else (PostResult.errorResp 500, db0)

/-- The filter predicate of the article-history view: case-insensitive
substring match of the search term against title or keywords, and
equality of the type filter unless it is "all". -/
def matchesFilter (searchTerm filterType : String) (a : Article) : Bool :=
  (containsLower a.title searchTerm || containsLower a.keywords searchTerm)
  && (filterType == "all" || a.settings.articleType == filterType)

/-- `articles.filter(...)` of the article-history view. -/
def filterArticles (searchTerm filterType : String) (arts : List Article) :
    List Article :=
  arts.filter (matchesFilter searchTerm filterType)

/-- The spec's wording of the filter rule, as a proposition: (title
contains term case-insensitively OR keywords contain it) AND (type
filter is "all" OR equals the stored article type). -/
def specKeep (searchTerm filterType : String) (a : Article) : Prop :=
  (containsLower a.title searchTerm = true
    ∨ containsLower a.keywords searchTerm = true)
  ∧ (filterType = "all" ∨ a.settings.articleType = filterType)

/-- The `sizeOrder` object of the size comparator in the history view. -/
def sizeOrder : List (String × Nat) :=
  [("X-Small", 1), ("Small", 2), ("Medium", 3), ("Large", 4)]

/-- Severity rank of an article size per `sizeOrder` (0 for sizes the
comparator would turn into NaN arithmetic; all stored sizes are ranked). -/
def sizeRank (s : String) : Nat := (lookupStr s sizeOrder).getD 0

/-- Ascending order used by the `articleSize` sort branch: the source's
numeric comparator `sizeOrder[a] - sizeOrder[b]` orders rows by rank. -/
def sizeLE (a b : Article) : Prop :=
  sizeRank a.settings.articleSize ≤ sizeRank b.settings.articleSize

instance : DecidableRel sizeLE := fun a b =>
  inferInstanceAs (Decidable (sizeRank a.settings.articleSize ≤ sizeRank b.settings.articleSize))

instance : IsTotal Article sizeLE :=
  ⟨fun a b => Nat.le_total (sizeRank a.settings.articleSize) (sizeRank b.settings.articleSize)⟩

instance : IsTrans Article sizeLE :=
  ⟨fun _ _ _ hab hbc => Nat.le_trans hab hbc⟩

/-- Sorting the history by `articleSize` ascending (a stable
comparison sort, as JavaScript `Array.prototype.sort`). -/
def sortBySizeAsc (arts : List Article) : List Article :=
  List.insertionSort sizeLE arts

/-- Claim-side description of the structure step: the nine flags paired
with their labels, in the declared flag order. -/
def orderedStructureLabels (st : StructureFlags) : List (Bool × String) :=
  [(st.conclusion, "Conclusion section"), (st.faqSection, "FAQ section"),
   (st.tables, "Data tables"), (st.h3Headings, "H3 subheadings within sections"),
   (st.lists, "Bulleted or numbered lists"), (st.italics, "Italic text for emphasis"),
   (st.bold, "Bold text for emphasis"), (st.quotes, "Relevant quotes"),
   (st.keyTakeaways, "Key takeaways section")]

/-- All nine structure toggles off. -/
def allOffFlags : StructureFlags :=
  { conclusion := false, faqSection := false, tables := false, h3Headings := false,
    lists := false, italics := false, bold := false, quotes := false,
    keyTakeaways := false }

/-- A plain valid settings snapshot used by the concrete store and
history examples. -/
def plainSettings : ArticleSettings :=
  { articleType := "None", articleSize := "Small", tone := "None",
    pointOfView := "None", readability := "None",
    aiCleaning := "No AI Words Removal", structureFlags := allOffFlags,
    language := "en" }

/-- The golden-scenario compiler input: Best Coffee / Listicle / Small /
Friendly / lists and conclusion on / English. -/
def coffeeSettings : PromptData :=
  { title := "Best Coffee", keywords := "coffee,brew", articleType := "Listicle",
    articleSize := "Small", tone := "Friendly", pointOfView := "None",
    readability := "None", aiCleaning := "No AI Words Removal",
    structureFlags := { allOffFlags with conclusion := true, lists := true },
    language := "en" }

/-- The compiled golden-scenario prompt (the compiler succeeds here, so
`getD` never sees its default). -/
def coffeePrompt : String := (buildArticlePrompt coffeeSettings).getD ""

/-- An article owned by user `alice`. -/
def aliceArticle : Article :=
  { id := "a1", userId := "alice", title := "Alice notes", content := "secret text",
    keywords := "private", settings := plainSettings, createdAt := 1, updatedAt := 1 }

/-- C1: a record is returned or hard-deleted purely by id: at the
concrete store holding only alice's article `a1`, a request by the
different user `bob` receives the full record from the GET handler and
successfully deletes it through the DELETE handler, although the claim
(and the handlers' own comments) require `NotFound` for a foreign
owner. -/
theorem getById_deleteById_ignore_owner :
    aliceArticle.userId ≠ "bob" ∧
    getById [aliceArticle] "a1" "bob" = GetByIdResult.found aliceArticle ∧
    deleteById [aliceArticle] "a1" "bob" = (DeleteResult.success, []) := by
  decide

/-- C7: `getMaxTokens` is total with the fixed values 2000/4000/6000/8000
on the four sizes and returns 4000 on every other string. -/
theorem getMaxTokens_total_fixed :
    getMaxTokens "X-Small" = 2000 ∧ getMaxTokens "Small" = 4000 ∧
    getMaxTokens "Medium" = 6000 ∧ getMaxTokens "Large" = 8000 ∧
    (∀ s : String, s ≠ "X-Small" → s ≠ "Small" → s ≠ "Medium" → s ≠ "Large" →
      getMaxTokens s = 4000) := by
  refine ⟨by decide, by decide, by decide, by decide, ?_⟩
  intro s h1 h2 h3 h4
  simp [getMaxTokens, tokenLimits, lookupStr, h1, h2, h3, h4]

/-- Witness for C7: the fallback value at the concrete unknown size
"Gigantic". -/
theorem getMaxTokens_total_fixed_witness : getMaxTokens "Gigantic" = 4000 :=
  getMaxTokens_total_fixed.2.2.2.2 "Gigantic" (by decide) (by decide) (by decide)
    (by decide)

/-- C6: on each of the four clause axes, a non-neutral value missing
from its lookup table is emitted verbatim as the clause text (the
compiler never fails there), and the neutral value of each axis emits
no clause at all. -/
theorem clause_fallback_and_neutral :
    (∀ v : String, v ≠ "None" → lookupStr v toneInstructions = none →
      toneClause v = "\n- Tone: " ++ v) ∧
    toneClause "None" = "" ∧
    (∀ v : String, v ≠ "None" → lookupStr v povInstructions = none →
      povClause v = "\n- Point of View: " ++ v) ∧
    povClause "None" = "" ∧
    (∀ v : String, v ≠ "None" → lookupStr v readabilityInstructions = none →
      readabilityClause v = "\n- Readability Level: " ++ v) ∧
    readabilityClause "None" = "" ∧
    (∀ v : String, v ≠ "No AI Words Removal" → lookupStr v cleaningInstructions = none →
      aiCleaningClause v = "\n- Content Style: " ++ v) ∧
    aiCleaningClause "No AI Words Removal" = "" := by
  refine ⟨?_, by decide, ?_, by decide, ?_, by decide, ?_, by decide⟩ <;>
    · intro v hne hlk
      simp [toneClause, povClause, readabilityClause, aiCleaningClause, hne, hlk]

/-- Witness for C6: concrete unknown values on each axis are copied into
the clause verbatim. -/
theorem clause_fallback_and_neutral_witness :
    toneClause "Sarcastic" = "\n- Tone: Sarcastic" ∧
    povClause "Omniscient" = "\n- Point of View: Omniscient" ∧
    readabilityClause "Kindergarten" = "\n- Readability Level: Kindergarten" ∧
    aiCleaningClause "Total AI Words Removal" = "\n- Content Style: Total AI Words Removal" :=
  ⟨clause_fallback_and_neutral.1 "Sarcastic" (by decide) (by decide),
   clause_fallback_and_neutral.2.2.1 "Omniscient" (by decide) (by decide),
   clause_fallback_and_neutral.2.2.2.2.1 "Kindergarten" (by decide) (by decide),
   clause_fallback_and_neutral.2.2.2.2.2.2.1 "Total AI Words Removal" (by decide)
     (by decide)⟩

/-- The size table has an entry exactly for the four enumerated sizes. -/
theorem lookupStr_sizeRequirements_isSome (s : String) :
    (lookupStr s sizeRequirements).isSome = true ↔
      (s = "X-Small" ∨ s = "Small" ∨ s = "Medium" ∨ s = "Large") := by
  simp only [sizeRequirements, lookupStr]
  split_ifs with h1 h2 h3 h4 <;> simp_all

/-- C10: the compiler produces a prompt exactly when `articleSize` is one
of the four enumerated sizes; outside them the unchecked size lookup
makes the `words`/`h2` access fail, and inside them the failure branch
is unreachable. -/
theorem buildArticlePrompt_total_iff_known_size (d : PromptData) :
    (buildArticlePrompt d).isSome = true ↔
      (d.articleSize = "X-Small" ∨ d.articleSize = "Small" ∨
       d.articleSize = "Medium" ∨ d.articleSize = "Large") := by
  have h := lookupStr_sizeRequirements_isSome d.articleSize
  unfold buildArticlePrompt
  cases hl : lookupStr d.articleSize sizeRequirements <;> simp [hl] at h ⊢ <;>
    tauto

/-- Witness for C10: the golden-scenario input has size "Small", and the
compiler indeed succeeds on it. -/
theorem buildArticlePrompt_total_iff_known_size_witness :
    (buildArticlePrompt coffeeSettings).isSome = true :=
  (buildArticlePrompt_total_iff_known_size coffeeSettings).2 (Or.inr (Or.inl rfl))

/-- C2 (amended): only `articleSize` can make prompt compilation fail;
with any of the four sizes the compiler succeeds whatever the other
enumerated fields hold, so an out-of-set `articleType`, `tone`,
`pointOfView`, `readability` or `aiCleaning` never raises an error. -/
theorem buildArticlePrompt_fails_only_on_size (d : PromptData) :
    (d.articleSize ≠ "X-Small" → d.articleSize ≠ "Small" →
      d.articleSize ≠ "Medium" → d.articleSize ≠ "Large" →
      buildArticlePrompt d = none) ∧
    ((d.articleSize = "X-Small" ∨ d.articleSize = "Small" ∨
      d.articleSize = "Medium" ∨ d.articleSize = "Large") →
      (buildArticlePrompt d).isSome = true) := by
  have h := lookupStr_sizeRequirements_isSome d.articleSize
  constructor
  · intro h1 h2 h3 h4
    unfold buildArticlePrompt
    cases hl : lookupStr d.articleSize sizeRequirements
    · rfl
    · rw [hl] at h
      simp at h
      tauto
  · intro hmem
    unfold buildArticlePrompt
    cases hl : lookupStr d.articleSize sizeRequirements
    · rw [hl] at h
      simp at h
      tauto
    · rfl

/-- The golden-scenario input with its tone replaced by a value outside
the tone enumeration. -/
def sarcasticSettings : PromptData := { coffeeSettings with tone := "Sarcastic" }

/-- Counterexample to C2 as stated: at a settings object whose `tone`
holds the out-of-set value "Sarcastic", prompt compilation succeeds
instead of failing. -/
theorem unknown_tone_still_compiles :
    sarcasticSettings.tone = "Sarcastic" ∧
    lookupStr sarcasticSettings.tone toneInstructions = none ∧
    (buildArticlePrompt sarcasticSettings).isSome = true := by
  decide

/-- The golden-scenario input with its readability replaced by a value
outside the readability enumeration. -/
def kindergartenSettings : PromptData :=
  { coffeeSettings with readability := "Kindergarten" }

/-- Witness for C2 (amended): compilation succeeds on a concrete input
whose readability is out of set but whose size is "Small". -/
theorem buildArticlePrompt_fails_only_on_size_witness :
    (buildArticlePrompt kindergartenSettings).isSome = true :=
  (buildArticlePrompt_fails_only_on_size kindergartenSettings).2
    (Or.inr (Or.inl rfl))

/-- C5: for every combination of the nine structure flags, the collected
item list holds exactly the label of each `true` flag in the declared
flag order, and the "Include:" line is empty exactly when every flag is
`false`. -/
theorem structureItems_exact_and_ordered (st : StructureFlags) :
    structureItems st =
      ((orderedStructureLabels st).filter (fun p => p.1)).map (fun p => p.2) ∧
    (includeLine st = "" ↔ ∀ p ∈ orderedStructureLabels st, p.1 = false) := by
  obtain ⟨c, f, t, h3, l, i, b, q, k⟩ := st
  cases c <;> cases f <;> cases t <;> cases h3 <;> cases l <;> cases i <;>
    cases b <;> cases q <;> cases k <;> decide

/-- Witness for C5: at the golden scenario's flag set (conclusion and
lists on) the item list is exactly the two labels in declared order and
the "Include:" line is present. -/
theorem structureItems_exact_and_ordered_witness :
    structureItems { allOffFlags with conclusion := true, lists := true } =
      (((orderedStructureLabels { allOffFlags with conclusion := true, lists := true }).filter
        (fun p => p.1)).map (fun p => p.2)) ∧
    (includeLine { allOffFlags with conclusion := true, lists := true } = "" ↔
      ∀ p ∈ orderedStructureLabels { allOffFlags with conclusion := true, lists := true },
        p.1 = false) :=
  structureItems_exact_and_ordered { allOffFlags with conclusion := true, lists := true }

/-- C3: the generate route reports success exactly when the generation
stage produced non-empty content and the persistence write completed;
and the table either is unchanged or gains exactly the one row built
from that non-empty generated content, so no article row is ever
persisted without content and a failed write is never reported as
success. -/
theorem generate_success_iff_generated_and_persisted
    (req : PromptData) (userId articleId : String) (genContent : Option String)
    (insertOk : Bool) (now : Nat) (db0 : List Article) :
    ((generatePOST req userId articleId genContent insertOk now db0).1.isSuccess = true ↔
      (∃ c, genContent = some c ∧ c ≠ "" ∧ insertOk = true)) ∧
    ((generatePOST req userId articleId genContent insertOk now db0).2 = db0 ∨
      (∃ c, genContent = some c ∧ c ≠ "" ∧ insertOk = true ∧
        (articleFromRequest articleId userId req c now).content = c ∧
        (generatePOST req userId articleId genContent insertOk now db0).2 =
          db0 ++ [articleFromRequest articleId userId req c now])) := by
  cases genContent with
  | none => simp [generatePOST, PostResult.isSuccess]
  | some c =>
    by_cases hc : c = "" <;> cases insertOk <;>
      simp [generatePOST, PostResult.isSuccess, hc, articleFromRequest]

/-- Witness for C3: a concrete run with generated content "Full article
text" and a completing write is reported as success, and the concrete
run with a failing write is not. -/
theorem generate_success_iff_generated_and_persisted_witness :
    ((generatePOST coffeeSettings "alice" "a9" (some "Full article text") true 7
        []).1.isSuccess = true ↔
      (∃ c, (some "Full article text" : Option String) = some c ∧ c ≠ "" ∧
        true = true)) ∧
    (((generatePOST coffeeSettings "alice" "a9" (some "Full article text") true 7
        []).2 = [] ∨
      (∃ c, (some "Full article text" : Option String) = some c ∧ c ≠ "" ∧
        true = true ∧
        (articleFromRequest "a9" "alice" coffeeSettings c 7).content = c ∧
        (generatePOST coffeeSettings "alice" "a9" (some "Full article text") true 7
          []).2 = [] ++ [articleFromRequest "a9" "alice" coffeeSettings c 7]))) :=
  generate_success_iff_generated_and_persisted coffeeSettings "alice" "a9"
    (some "Full article text") true 7 []

/-- Counterexample to C4 as stated: the golden-scenario prompt does not
contain the text "Include: Lists, Conclusion"; the structure line the
compiler emits uses the full labels in declared flag order, conclusion
first. -/
theorem coffeePrompt_lacks_claimed_include_text :
    containsStr coffeePrompt "Include: Lists, Conclusion" = false := by
  decide

/-- C4 (amended): the golden-scenario prompt contains the Small
word-count range line, the Friendly tone clause, and the structure line
"- Include: Conclusion section, Bulleted or numbered lists" (one label
per set flag, in declared flag order), and the resolved token budget is
4000. -/
theorem coffeePrompt_golden_contents :
    containsStr coffeePrompt "- Word Count: 1200-2400 words" = true ∧
    containsStr coffeePrompt "- Tone: Use a warm, approachable, and conversational tone" = true ∧
    containsStr coffeePrompt "- Include: Conclusion section, Bulleted or numbered lists" = true ∧
    getMaxTokens "Small" = 4000 := by
  decide

/-- An article titled "How-to Guide" for the history-filter scenario. -/
def guideArticle : Article :=
  { id := "g1", userId := "u1", title := "How-to Guide", content := "guide body",
    keywords := "tutorial,help", settings := plainSettings, createdAt := 1,
    updatedAt := 1 }

/-- An article titled "Recipe" for the history-filter scenario. -/
def recipeArticle : Article :=
  { id := "r1", userId := "u1", title := "Recipe", content := "recipe body",
    keywords := "cooking,food", settings := plainSettings, createdAt := 2,
    updatedAt := 2 }

/-- C8: the history filter keeps an article exactly when the
case-insensitive search term matches its title or keywords and the type
filter is "all" or equals its stored article type; searching "guide"
over the How-to Guide and Recipe pair keeps exactly the first. -/
theorem filterArticles_keeps_iff_spec :
    (∀ searchTerm filterType : String, ∀ arts : List Article, ∀ a : Article,
      a ∈ filterArticles searchTerm filterType arts ↔
        a ∈ arts ∧ specKeep searchTerm filterType a) ∧
    filterArticles "guide" "all" [guideArticle, recipeArticle] = [guideArticle] := by
  constructor
  · intro s ft arts a
    simp [filterArticles, matchesFilter, specKeep, List.mem_filter]
  · decide

/-- Witness for C8: the membership characterisation instantiated at the
concrete guide article and concrete two-article collection. -/
theorem filterArticles_keeps_iff_spec_witness :
    guideArticle ∈ filterArticles "guide" "all" [guideArticle, recipeArticle] ↔
      guideArticle ∈ [guideArticle, recipeArticle] ∧
        specKeep "guide" "all" guideArticle :=
  filterArticles_keeps_iff_spec.1 "guide" "all" [guideArticle, recipeArticle]
    guideArticle

/-- The plain settings with a given article size. -/
def settingsOfSize (s : String) : ArticleSettings :=
  { plainSettings with articleSize := s }

/-- A Large-size article for the sorting scenario. -/
def largeArticle : Article :=
  { id := "s1", userId := "u1", title := "L", content := "c", keywords := "k",
    settings := settingsOfSize "Large", createdAt := 1, updatedAt := 1 }

/-- An X-Small-size article for the sorting scenario. -/
def xSmallArticle : Article :=
  { id := "s2", userId := "u1", title := "X", content := "c", keywords := "k",
    settings := settingsOfSize "X-Small", createdAt := 2, updatedAt := 2 }

/-- A Medium-size article for the sorting scenario. -/
def mediumArticle : Article :=
  { id := "s3", userId := "u1", title := "M", content := "c", keywords := "k",
    settings := settingsOfSize "Medium", createdAt := 3, updatedAt := 3 }

/-- C9: sorting by size uses the fixed severity ranks X-Small 1, Small 2,
Medium 3, Large 4 — an order that disagrees with lexicographic string
order on "Medium" vs "Small" — the concrete [Large, X-Small, Medium]
collection sorts ascending to [X-Small, Medium, Large], and on every
collection the sort returns a permutation ordered by rank. -/
theorem sortBySize_severity_order :
    sortBySizeAsc [largeArticle, xSmallArticle, mediumArticle] =
      [xSmallArticle, mediumArticle, largeArticle] ∧
    sizeRank "X-Small" = 1 ∧ sizeRank "Small" = 2 ∧ sizeRank "Medium" = 3 ∧
    sizeRank "Large" = 4 ∧
    ("Medium".toList < "Small".toList ∧ sizeRank "Small" < sizeRank "Medium") ∧
    (∀ arts : List Article, List.Sorted sizeLE (sortBySizeAsc arts) ∧
      (sortBySizeAsc arts).Perm arts) := by
  refine ⟨by decide, by decide, by decide, by decide, by decide, ⟨?_, by decide⟩, ?_⟩
  · decide
  · intro arts
    exact ⟨List.sorted_insertionSort sizeLE arts, List.perm_insertionSort sizeLE arts⟩

/-- Witness for C9: sortedness and permutation instantiated at the
concrete three-article collection. -/
theorem sortBySize_severity_order_witness :
    List.Sorted sizeLE (sortBySizeAsc [largeArticle, xSmallArticle, mediumArticle]) ∧
    (sortBySizeAsc [largeArticle, xSmallArticle, mediumArticle]).Perm
      [largeArticle, xSmallArticle, mediumArticle] :=
  sortBySize_severity_order.2.2.2.2.2.2 [largeArticle, xSmallArticle, mediumArticle]
